import Mathlib

/-!
# Verification of `ahkab/devices.py` (device and waveform core)

A shallow embedding of the circuit-element and time-function classes of
`ahkab/devices.py`, together with theorems checking the natural-language
specification of the module against the code.

Modelling conventions, used uniformly below:

* Python `float` scalars are embedded as `ℚ` where the code only performs
  field arithmetic, comparisons and truncation (resistor, capacitor, pulse
  waveform, coupling), and as `ℝ` where the code calls `math.exp` /
  `np.abs` / `np.angle` (exponential waveform, AC phasor decomposition).
* Python `None` is `Option.none`; a value that may be `None` lives in
  `Option`.
* A Python `raise` is embedded as the `Except.error` branch of a function
  returning `Except String _`; reading a never-assigned attribute
  (an `AttributeError`) is embedded by giving the attribute the type
  `Option _` holding `none` whenever no constructor ever assigns it.
* Python `int(x)` truncates toward zero; it is embedded as `pyInt`.
* Python `str.upper()` maps each character to upper case; it is embedded
  as `pyUpper` (the identifiers involved are ASCII).
* Python string formatting of numbers (`str(x)`, `"%g" % x`) has no exact
  Lean counterpart for `ℝ`; serialized source lines are therefore embedded
  down to their clause structure (`SrcClause`), in the exact order the code
  concatenates the clauses, while serialized lines whose numeric fields are
  `ℚ` are embedded as strings with `toString` standing for the numeric
  formatter.
-/

namespace Ahkab

/-- Python `int(x)`: truncation toward zero (`math.floor` for nonnegative
arguments, `math.ceil` for negative ones). -/
def pyInt (q : ℚ) : ℤ := if 0 ≤ q then ⌊q⌋ else ⌈q⌉

/-- Python `str.upper()` restricted to ASCII: upper-case every character. -/
def pyUpper (s : String) : String := String.mk (s.data.map Char.toUpper)

/-! ## Resistor (`class Resistor`, devices.py lines 381-432)

`__init__` stores `_value = value` and `_g = 1./value`; the `g` and `value`
properties read the private fields, and their setters write one field and
recompute the other as its reciprocal.  A zero divisor raises
`ZeroDivisionError` in Python; every such division is guarded by an
`Option` here. -/

structure Resistor where
  part_id : String
  n1 : ℕ
  n2 : ℕ
  _value : ℚ
  _g : ℚ
  is_nonlinear : Bool
  is_symbolic : Bool
deriving DecidableEq

/-- `Resistor.__init__(part_id, n1, n2, value)`: computes `_g = 1./value`,
hence raises (`none`) when `value == 0`. -/
def mkResistor (part_id : String) (n1 n2 : ℕ) (value : ℚ) : Option Resistor :=
  if value = 0 then none
  else some { part_id := part_id, n1 := n1, n2 := n2, _value := value,
              _g := 1 / value, is_nonlinear := false, is_symbolic := true }

/-- The `g` property getter (`return self._g`). -/
def Resistor.g (r : Resistor) : ℚ := r._g

/-- The `value` property getter (`return self._value`). -/
def Resistor.value (r : Resistor) : ℚ := r._value

/-- The `g` property setter: `self._g = g; self._value = 1./g`. -/
def Resistor.setG (r : Resistor) (g : ℚ) : Option Resistor :=
  if g = 0 then none
  else some { r with _g := g, _value := 1 / g }

/-- The `value` property setter: `self._value = value; self._g = 1./value`. -/
def Resistor.setValue (r : Resistor) (value : ℚ) : Option Resistor :=
  if value = 0 then none
  else some { r with _value := value, _g := 1 / value }

/-- `Resistor.i(self, v, time=0)`: `return 0`. -/
def Resistor.i (_ : Resistor) (_ : List ℚ) (_ : ℚ) : ℚ := 0

/-! ## Capacitor (`class Capacitor`, devices.py lines 435-476) -/

structure Capacitor where
  part_id : String
  n1 : ℕ
  n2 : ℕ
  value : ℚ
  ic : ℚ
  is_nonlinear : Bool
  is_symbolic : Bool
deriving DecidableEq

/-- `Capacitor.__init__(part_id, n1, n2, value, ic)`. -/
def mkCapacitor (part_id : String) (n1 n2 : ℕ) (value ic : ℚ) : Capacitor :=
  { part_id := part_id, n1 := n1, n2 := n2, value := value, ic := ic,
    is_nonlinear := false, is_symbolic := true }

/-- `Capacitor.g(self, v, time=0)`: `return 0`. -/
def Capacitor.g (_ : Capacitor) (_ : List ℚ) (_ : ℚ) : ℚ := 0

/-- `Capacitor.i(self, v, time=0)`: `return 0`. -/
def Capacitor.i (_ : Capacitor) (_ : List ℚ) (_ : ℚ) : ℚ := 0

/-- `Capacitor.d(self, v, time=0)`: `return self.value` (the charge
derivative used by the transient integrator). -/
def Capacitor.d (c : Capacitor) (_ : List ℚ) (_ : ℚ) : ℚ := c.value

/-! ## Inductor coupling (`class InductorCoupling`, devices.py lines 502-528)

`__init__` assigns `part_id`, `L1`, `L2`, `M`, `K` and the two flags; it
never assigns `self.value` (and does not call `Component.__init__`), so the
`value` attribute is absent (`none`) on every constructed instance. -/

structure InductorCoupling where
  part_id : String
  L1 : String
  L2 : String
  M : ℚ
  K : ℚ
  is_nonlinear : Bool
  is_symbolic : Bool
  value : Option ℚ
deriving DecidableEq

/-- `InductorCoupling.__init__(part_id, L1, L2, K, M)`. -/
def mkInductorCoupling (part_id L1 L2 : String) (K M : ℚ) : InductorCoupling :=
  { part_id := part_id, L1 := L1, L2 := L2, M := M, K := K,
    is_nonlinear := false, is_symbolic := true, value := none }

/-- `InductorCoupling.__str__`: `"%s %s %g" % (self.L1, self.L2, self.value)`.
Reading `self.value` raises `AttributeError` when the attribute was never
assigned; `toString` stands for the `%g` numeric formatter. -/
def InductorCoupling.strImpl (c : InductorCoupling) : Except String String :=
  match c.value with
  | none => Except.error "AttributeError: value"
  | some v => Except.ok (c.L1 ++ " " ++ c.L2 ++ " " ++ toString v)

/-- `InductorCoupling.get_other_inductor(self, Lselected)`: case-insensitive
match of `Lselected` against `L1` and `L2`; returns the other identifier, or
raises `Exception("Mutual inductors bug.")` when neither matches. -/
def InductorCoupling.get_other_inductor (c : InductorCoupling)
    (Lselected : String) : Except String String :=
  let Lret : Option String :=
    if pyUpper Lselected = pyUpper c.L1 then some c.L2
    else if pyUpper Lselected = pyUpper c.L2 then some c.L1
    else none
  match Lret with
  | none => Except.error "Mutual inductors bug."
  | some l => Except.ok l

/-- `InductorCoupling.get_netlist_elem_line(self, nodes_dict)`:
`"%s %s %s %g" % (self.part_id, self.L1, self.L2, self.K)` — it reads only
assigned attributes, so it never raises. -/
def InductorCoupling.get_netlist_elem_line (c : InductorCoupling)
    (_ : ℕ → String) : String :=
  c.part_id ++ " " ++ c.L1 ++ " " ++ c.L2 ++ " " ++ toString c.K

/-! ## Independent sources (`class ISource` lines 536-603,
`class VSource` lines 606-712)

The value type of the source (Python `float`) is kept generic in `α`; an
attached time function is any object with a `value(time)` method, embedded
as `Option α → Option α` so that passing Python `None` as the time to the
waveform is representable.  The AC amplitude `ac_value` is a complex
number, embedded as a pair `ℚ × ℚ` of real and imaginary parts;
`np.abs` / `np.angle` are `npAbs` / `npAngle` below. -/

/-- `np.abs` on a complex amplitude. -/
noncomputable def npAbs (z : ℚ × ℚ) : ℝ :=
  Real.sqrt ((z.1 : ℝ) ^ 2 + (z.2 : ℝ) ^ 2)

/-- `np.angle` on a complex amplitude. -/
noncomputable def npAngle (z : ℚ × ℚ) : ℝ :=
  Complex.arg ⟨(z.1 : ℝ), (z.2 : ℝ)⟩

structure ISource (α : Type) where
  part_id : String
  n1 : ℕ
  n2 : ℕ
  dc_value : Option α
  abs_ac : Option ℝ
  arg_ac : Option ℝ
  is_nonlinear : Bool
  is_symbolic : Bool
  is_timedependent : Bool
  time_function : Option (Option α → Option α)

/-- `ISource.__init__(part_id, n1, n2, dc_value=None, ac_value=0)`:
`self.abs_ac = np.abs(ac_value) if ac_value else None` and
`self.arg_ac = np.angle(ac_value) if ac_value else None`. -/
noncomputable def mkISource {α : Type} (part_id : String) (n1 n2 : ℕ)
    (dc_value : Option α) (ac_value : ℚ × ℚ) : ISource α :=
  { part_id := part_id, n1 := n1, n2 := n2, dc_value := dc_value,
    abs_ac := if ac_value = 0 then none else some (npAbs ac_value),
    arg_ac := if ac_value = 0 then none else some (npAngle ac_value),
    is_nonlinear := false, is_symbolic := true,
    is_timedependent := false, time_function := none }

/-- `ISource.I(self, time=None)`:
`if not self.is_timedependent or (self._time_function == None) or
(time == None and self.dc_value is not None): return self.dc_value
else: return self._time_function.value(time)`. -/
def ISource.I {α : Type} (s : ISource α) (time : Option α) : Option α :=
  if !s.is_timedependent || s.time_function.isNone
      || (time.isNone && s.dc_value.isSome) then
    s.dc_value
  else
    match s.time_function with
    | some f => f time
    | none => none

structure VSource (α : Type) where
  part_id : String
  n1 : ℕ
  n2 : ℕ
  dc_value : Option α
  abs_ac : Option ℝ
  arg_ac : Option ℝ
  is_nonlinear : Bool
  is_symbolic : Bool
  is_timedependent : Bool
  time_function : Option (Option α → Option α)
  dc_guess : Option (List α)

/-- `VSource.__init__(part_id, n1, n2, dc_value, ac_value=0)`: like
`ISource.__init__`, and additionally `self.dc_guess = [self.dc_value]`
when `dc_value is not None`. -/
noncomputable def mkVSource {α : Type} (part_id : String) (n1 n2 : ℕ)
    (dc_value : Option α) (ac_value : ℚ × ℚ) : VSource α :=
  { part_id := part_id, n1 := n1, n2 := n2, dc_value := dc_value,
    abs_ac := if ac_value = 0 then none else some (npAbs ac_value),
    arg_ac := if ac_value = 0 then none else some (npAngle ac_value),
    is_nonlinear := false, is_symbolic := true,
    is_timedependent := false, time_function := none,
    dc_guess := dc_value.map (fun v => [v]) }

/-- `VSource.V(self, time=None)`:
`if not self.is_timedependent or (self._time_function is None) or
(time is None and self.dc_value is not None): return self.dc_value
else: return self._time_function.value(time)`. -/
def VSource.V {α : Type} (s : VSource α) (time : Option α) : Option α :=
  if !s.is_timedependent || s.time_function.isNone
      || (time.isNone && s.dc_value.isSome) then
    s.dc_value
  else
    match s.time_function with
    | some f => f time
    | none => none

/-- One clause of a serialized independent-source line, in the order the
code concatenates them (`__str__` / `get_netlist_elem_line`): an optional
DC clause, an optional AC clause, an optional time-function clause. -/
inductive SrcClause (α : Type) where
  | idc (v : α)
  | iac (mag : ℝ) (arg : Option ℝ)
  | vdc (v : α)
  | vac (mag : ℝ)
  | wave

/-- Clause structure shared by `ISource.__str__` and the tail of
`ISource.get_netlist_elem_line`: `type=idc value=…` when `dc_value` is not
`None`, then `iac=… arg=…` when `abs_ac` is not `None`, then the
time-function text when `is_timedependent`. -/
def ISource.lineClauses {α : Type} (s : ISource α) : List (SrcClause α) :=
  (match s.dc_value with
   | some v => [SrcClause.idc v]
   | none => []) ++
  (match s.abs_ac with
   | some m => [SrcClause.iac m s.arg_ac]
   | none => []) ++
  (if s.is_timedependent then [SrcClause.wave] else [])

/-- `ISource.get_netlist_elem_line(self, nodes_dict)`: the part id, the two
looked-up node names, then the clauses of `__str__`. -/
def ISource.get_netlist_elem_line {α : Type} (s : ISource α)
    (nodes_dict : ℕ → String) : String × String × String × List (SrcClause α) :=
  (s.part_id, nodes_dict s.n1, nodes_dict s.n2, s.lineClauses)

/-- Clause structure shared by `VSource.__str__` and the tail of
`VSource.get_netlist_elem_line`: `type=vdc value=…` when `dc_value` is not
`None`, then `vac=…` when `abs_ac` is not `None` (the code deliberately
omits `arg=` for voltage sources), then the time-function text when
`is_timedependent`. -/
def VSource.lineClauses {α : Type} (s : VSource α) : List (SrcClause α) :=
  (match s.dc_value with
   | some v => [SrcClause.vdc v]
   | none => []) ++
  (match s.abs_ac with
   | some m => [SrcClause.vac m]
   | none => []) ++
  (if s.is_timedependent then [SrcClause.wave] else [])

/-- `VSource.get_netlist_elem_line(self, nodes_dict)`. -/
def VSource.get_netlist_elem_line {α : Type} (s : VSource α)
    (nodes_dict : ℕ → String) : String × String × String × List (SrcClause α) :=
  (s.part_id, nodes_dict s.n1, nodes_dict s.n2, s.lineClauses)

/-- Whether a serialized clause list carries an AC clause (`iac=` or
`vac=`). -/
def hasAcClause {α : Type} (l : List (SrcClause α)) : Bool :=
  l.any fun c =>
    match c with
    | SrcClause.iac _ _ => true
    | SrcClause.vac _ => true
    | _ => false

/-! ## Current-controlled voltage source (`class HVSource`, lines 807-825)

`__init__` prints `"HVSource not implemented. TODO"` and then assigns the
attributes normally — construction does not raise.  `__str__` raises
`Exception("HVSource not implemented. TODO")`.  The class inherits
`Component.get_netlist_elem_line`, which reads `self.value`; `HVSource`'s
constructor never assigns `value`, so that inherited serialization raises
`AttributeError`. -/

structure HVSource where
  part_id : String
  n1 : ℕ
  n2 : ℕ
  alpha : ℚ
  source_id : String
  is_nonlinear : Bool
  is_symbolic : Bool
  value : Option ℚ
deriving DecidableEq

/-- `HVSource.__init__(part_id, n1, n2, value, source_id)`: returns the
printed warning together with the normally-constructed instance. -/
def mkHVSource (part_id : String) (n1 n2 : ℕ) (value : ℚ)
    (source_id : String) : String × HVSource :=
  ("HVSource not implemented. TODO",
   { part_id := part_id, n1 := n1, n2 := n2, alpha := value,
     source_id := source_id, is_nonlinear := false, is_symbolic := true,
     value := none })

/-- `HVSource.__str__`: `raise Exception("HVSource not implemented. TODO")`. -/
def HVSource.strImpl (_ : HVSource) : Except String String :=
  Except.error "HVSource not implemented. TODO"

/-- The inherited `Component.get_netlist_elem_line(self, nodes_dict)` applied
to an `HVSource`: `"%s %s %s %g" % (part_id, nodes_dict[n1], nodes_dict[n2],
self.value)`; reading the never-assigned `value` raises `AttributeError`. -/
def HVSource.get_netlist_elem_line (h : HVSource)
    (nodes_dict : ℕ → String) : Except String String :=
  match h.value with
  | none => Except.error "AttributeError: value"
  | some v => Except.ok (h.part_id ++ " " ++ nodes_dict h.n1 ++ " " ++
                         nodes_dict h.n2 ++ " " ++ toString v)

/-! ## Pulse waveform (`class pulse`, devices.py lines 865-923) -/

structure pulse where
  v1 : ℚ
  v2 : ℚ
  td : ℚ
  per : ℚ
  tr : ℚ
  tf : ℚ
  pw : ℚ
deriving DecidableEq

/-- `pulse.__init__(v1, v2, td, tr, pw, tf, per)`:
`self.td = max(td, 0.0)`, other parameters stored as given. -/
def mkPulse (v1 v2 td tr pw tf per : ℚ) : pulse :=
  { v1 := v1, v2 := v2, td := max td 0, per := per, tr := tr,
    tf := tf, pw := pw }

/-- `pulse.value(self, time)`:
`time = time - self.per * int(time / self.per)` followed by the
five-branch segment chain. -/
def pulse.value (p : pulse) (time : ℚ) : ℚ :=
  let t := time - p.per * (pyInt (time / p.per) : ℚ)
  if t < p.td then p.v1
  else if t < p.td + p.tr then
    p.v1 + ((p.v2 - p.v1) / p.tr) * (t - p.td)
  else if t < p.td + p.tr + p.pw then p.v2
  else if t < p.td + p.tr + p.pw + p.tf then
    p.v2 + ((p.v1 - p.v2) / p.tf) * (t - (p.td + p.tr + p.pw))
  else p.v1

/-- Modelled from the spec's wording of the five ordered pulse segments
("the low value until delay, a linear ramp from low to high over the rise
time, the high plateau for the plateau width, a linear ramp from high to
low over the fall time, and the low value for the remainder"), to be
applied to a time already wrapped into one period. -/
def pulseSpecSegments (p : pulse) (t : ℚ) : ℚ :=
  if t < p.td then p.v1
  else if t < p.td + p.tr then
    p.v1 + (p.v2 - p.v1) * (t - p.td) / p.tr
  else if t < p.td + p.tr + p.pw then p.v2
  else if t < p.td + p.tr + p.pw + p.tf then
    p.v2 + (p.v1 - p.v2) * (t - (p.td + p.tr + p.pw)) / p.tf
  else p.v1

/-! ## Exponential waveform (`class exp`, devices.py lines 984-1035) -/

structure exp where
  v1 : ℝ
  v2 : ℝ
  td1 : ℝ
  tau1 : ℝ
  td2 : ℝ
  tau2 : ℝ

/-- `exp.__init__(v1, v2, td1, tau1, td2, tau2)`. -/
def mkExp (v1 v2 td1 tau1 td2 tau2 : ℝ) : exp :=
  { v1 := v1, v2 := v2, td1 := td1, tau1 := tau1, td2 := td2, tau2 := tau2 }

/-- `exp.value(self, time)`: `v1` before `td1`; the rise term up to `td2`;
the rise term plus the fall term from `td2` on. -/
noncomputable def exp.value (e : exp) (time : ℝ) : ℝ :=
  if time < e.td1 then e.v1
  else if time < e.td2 then
    e.v1 + (e.v2 - e.v1) * (1 - Real.exp (-1 * (time - e.td1) / e.tau1))
  else
    e.v1 + (e.v2 - e.v1) * (1 - Real.exp (-1 * (time - e.td1) / e.tau1)) +
      (e.v1 - e.v2) * (1 - Real.exp (-1 * (time - e.td2) / e.tau2))

/-! ## Concrete instances used by witnesses and counterexamples -/

/-- A concrete resistor, as built by `Resistor.__init__("R1", 1, 2, 2)`. -/
def rEx : Resistor :=
  { part_id := "R1", n1 := 1, n2 := 2, _value := 2, _g := 1 / 2,
    is_nonlinear := false, is_symbolic := true }

/-- The coupling `InductorCoupling("K1", "La", "Lb", 0.5, 1.0)` of the spec
example. -/
def kEx : InductorCoupling := mkInductorCoupling "K1" "La" "Lb" (1 / 2) 1

/-- The pulse `(v1=0, v2=5, td=0, tr=1, tf=1, pw=2, per=10)` of the spec
example, through the constructor's positional order
`(v1, v2, td, tr, pw, tf, per)`. -/
def pulseEx : pulse := mkPulse 0 5 0 1 2 1 10

/-- The exponential waveform `(v1=0, v2=1, td1=0, tau1=1, td2=100, tau2=1)`
of the spec example. -/
def expEx : exp := mkExp 0 1 0 1 100 1

/-! ## Claims -/

/-- Claim C3: for every resistor constructed with a positive value, the
current stamp `i(v, time)` is zero for every voltage vector and time, and
reading the conductance property yields `1/value`. -/
theorem C3_resistor_stamp (part_id : String) (n1 n2 : ℕ) (R : ℚ)
    (hR : 0 < R) (r : Resistor) (hr : mkResistor part_id n1 n2 R = some r)
    (v : List ℚ) (t : ℚ) :
    r.i v t = 0 ∧ r.g = 1 / R := by
  rw [mkResistor, if_neg hR.ne'] at hr
  cases hr
  exact ⟨rfl, rfl⟩

/-- Witness for C3 at the concrete resistor `Resistor("R1", 1, 2, 2)`. -/
theorem C3_resistor_stamp_witness : rEx.i [] 0 = 0 ∧ rEx.g = 1 / 2 :=
  C3_resistor_stamp "R1" 1 2 2 (by norm_num) rEx
    (by rw [mkResistor, if_neg (by norm_num : (2 : ℚ) ≠ 0)]; rfl) [] 0

/-- Claim C4: writing either member of the resistor's value/conductance
pair recomputes the other as its reciprocal, so after either write the
invariant `conductance == 1/value` holds and both reads reflect the new
state; setting the conductance to `g` then reading the value yields `1/g`,
and setting the value to `R` then reading the conductance yields `1/R`. -/
theorem C4_resistor_value_conductance_sync (r : Resistor) (gv Rv : ℚ)
    (hg : gv ≠ 0) (hR : Rv ≠ 0) :
    (∃ r1, r.setG gv = some r1 ∧ r1.g = gv ∧ r1.value = 1 / gv ∧
      r1.g = 1 / r1.value) ∧
    (∃ r2, r.setValue Rv = some r2 ∧ r2.value = Rv ∧ r2.g = 1 / Rv ∧
      r2.g = 1 / r2.value) := by
  constructor
  · refine ⟨{ r with _g := gv, _value := 1 / gv }, ?_, rfl, rfl, ?_⟩
    · rw [Resistor.setG, if_neg hg]
    · exact (one_div_one_div gv).symm
  · exact ⟨{ r with _value := Rv, _g := 1 / Rv }, by
      rw [Resistor.setValue, if_neg hR], rfl, rfl, rfl⟩

/-- Witness for C4 at the concrete resistor `rEx` with `g = 4`, `value = 5`. -/
theorem C4_resistor_value_conductance_sync_witness :
    (∃ r1, rEx.setG 4 = some r1 ∧ r1.g = 4 ∧ r1.value = 1 / 4 ∧
      r1.g = 1 / r1.value) ∧
    (∃ r2, rEx.setValue 5 = some r2 ∧ r2.value = 5 ∧ r2.g = 1 / 5 ∧
      r2.g = 1 / r2.value) :=
  C4_resistor_value_conductance_sync rEx 4 5 (by norm_num) (by norm_num)

/-- Claim C5: for every capacitor, every voltage vector and every time,
the current stamp and the conductance stamp are zero and the charge
derivative `d` returns the capacitance value. -/
theorem C5_capacitor_stamps (c : Capacitor) (v : List ℚ) (t : ℚ) :
    c.i v t = 0 ∧ c.g v t = 0 ∧ c.d v t = c.value :=
  ⟨rfl, rfl, rfl⟩

/-- Claim C8: `get_other_inductor` matches its argument case-insensitively
against the stored identifiers `L1` and `L2`, returns the other identifier
on a match, and raises (`Exception("Mutual inductors bug.")`) when neither
matches. -/
theorem C8_get_other_inductor (c : InductorCoupling) (sel : String) :
    (pyUpper sel = pyUpper c.L1 →
      c.get_other_inductor sel = Except.ok c.L2) ∧
    (pyUpper sel ≠ pyUpper c.L1 → pyUpper sel = pyUpper c.L2 →
      c.get_other_inductor sel = Except.ok c.L1) ∧
    (pyUpper sel ≠ pyUpper c.L1 → pyUpper sel ≠ pyUpper c.L2 →
      c.get_other_inductor sel = Except.error "Mutual inductors bug.") := by
  refine ⟨fun h1 => ?_, fun h1 h2 => ?_, fun h1 h2 => ?_⟩
  · simp only [InductorCoupling.get_other_inductor]
    rw [if_pos h1]
  · simp only [InductorCoupling.get_other_inductor]
    rw [if_neg h1, if_pos h2]
  · simp only [InductorCoupling.get_other_inductor]
    rw [if_neg h1, if_neg h2]

/-- Witness for C8 at `InductorCoupling("K1", "La", "Lb", 0.5, 1.0)`:
`"la"` yields `"Lb"` and `"Lc"` raises. -/
theorem C8_get_other_inductor_witness :
    kEx.get_other_inductor "la" = Except.ok "Lb" ∧
    kEx.get_other_inductor "Lc" = Except.error "Mutual inductors bug." :=
  ⟨(C8_get_other_inductor kEx "la").1 (by decide),
   (C8_get_other_inductor kEx "Lc").2.2 (by decide) (by decide)⟩

/-- Counterexample to claim C9: constructing the current-controlled
voltage source does not fail — `HVSource.__init__` only prints
`"HVSource not implemented. TODO"` and then stores its parameters
normally, so the constructed instance is readable. -/
theorem C9_hvsource_counterexample :
    (mkHVSource "H1" 1 2 3 "V1").2.part_id = "H1" ∧
    (mkHVSource "H1" 1 2 3 "V1").2.alpha = 3 ∧
    (mkHVSource "H1" 1 2 3 "V1").2.source_id = "V1" ∧
    (mkHVSource "H1" 1 2 3 "V1").1 = "HVSource not implemented. TODO" :=
  ⟨rfl, rfl, rfl, rfl⟩

/-- Claim C9 as amended: constructing an `HVSource` succeeds, emitting the
not-implemented warning and storing the parameters; converting it to a
string raises the explicit not-implemented error; the inherited netlist
serialization fails by reading the never-assigned `value` attribute
(an `AttributeError`), not with an explicit unsupported-operation error. -/
theorem C9_hvsource_amended (part_id : String) (n1 n2 : ℕ) (a : ℚ)
    (sid : String) (nodes_dict : ℕ → String) :
    (mkHVSource part_id n1 n2 a sid).1 = "HVSource not implemented. TODO" ∧
    (mkHVSource part_id n1 n2 a sid).2.part_id = part_id ∧
    (mkHVSource part_id n1 n2 a sid).2.alpha = a ∧
    (mkHVSource part_id n1 n2 a sid).2.source_id = sid ∧
    (mkHVSource part_id n1 n2 a sid).2.strImpl =
      Except.error "HVSource not implemented. TODO" ∧
    (mkHVSource part_id n1 n2 a sid).2.get_netlist_elem_line nodes_dict =
      Except.error "AttributeError: value" :=
  ⟨rfl, rfl, rfl, rfl, rfl, rfl⟩

/-- Claim C10: `InductorCoupling.__str__` always raises, because it reads
the `value` attribute that the constructor never assigns, while
`get_netlist_elem_line` always succeeds and emits the part identifier, the
two inductor identifiers and the coupling coefficient `K`. -/
theorem C10_coupling_str_vs_netlist (part_id L1 L2 : String) (K M : ℚ)
    (nodes_dict : ℕ → String) :
    (mkInductorCoupling part_id L1 L2 K M).value = none ∧
    (mkInductorCoupling part_id L1 L2 K M).strImpl =
      Except.error "AttributeError: value" ∧
    (mkInductorCoupling part_id L1 L2 K M).get_netlist_elem_line nodes_dict =
      part_id ++ " " ++ L1 ++ " " ++ L2 ++ " " ++ toString K :=
  ⟨rfl, rfl, rfl⟩

/-- A DC-only voltage source, `VSource("V1", 1, 0, dc_value=5)`. -/
noncomputable def exVdc : VSource ℚ := mkVSource "V1" 1 0 (some 5) 0

/-- A time function multiplying the supplied time by ten, standing for an
arbitrary object with a `value(time)` method. -/
def tenTimes : Option ℚ → Option ℚ := fun t => t.map fun x => 10 * x

/-- A voltage source with DC value 5, an attached waveform and
`is_timedependent = True`, set up the way the class docstring prescribes. -/
noncomputable def exVwave : VSource ℚ :=
  { mkVSource "V2" 1 0 (some 5) 0 with
    is_timedependent := true, time_function := some tenTimes }

/-- A current source with DC value 5, an attached waveform and
`is_timedependent = True`. -/
noncomputable def exIwave : ISource ℚ :=
  { mkISource "I1" 1 0 (some 5) 0 with
    is_timedependent := true, time_function := some tenTimes }

/-- Claim C1: for both independent source kinds, the evaluation of
`I(time)`/`V(time)` follows the exact precedence: a source that is not
flagged time-dependent, or has no attached waveform, returns the DC value;
a time-dependent source with a waveform returns the DC value when the time
is absent and a DC value is set; otherwise it delegates to the attached
waveform at the supplied time. -/
theorem C1_source_value_precedence {α : Type} (sI : ISource α)
    (sV : VSource α) (time : Option α) :
    ((sI.is_timedependent = false ∨ sI.time_function = none) →
      sI.I time = sI.dc_value) ∧
    (sI.is_timedependent = true → sI.time_function ≠ none → time = none →
      sI.dc_value ≠ none → sI.I time = sI.dc_value) ∧
    (∀ f : Option α → Option α, sI.is_timedependent = true →
      sI.time_function = some f →
      ((∃ t, time = some t) ∨ sI.dc_value = none) → sI.I time = f time) ∧
    ((sV.is_timedependent = false ∨ sV.time_function = none) →
      sV.V time = sV.dc_value) ∧
    (sV.is_timedependent = true → sV.time_function ≠ none → time = none →
      sV.dc_value ≠ none → sV.V time = sV.dc_value) ∧
    (∀ f : Option α → Option α, sV.is_timedependent = true →
      sV.time_function = some f →
      ((∃ t, time = some t) ∨ sV.dc_value = none) → sV.V time = f time) := by
  refine ⟨fun h => ?_, fun _ _ ht hdc => ?_, fun f htd htf hor => ?_,
          fun h => ?_, fun _ _ ht hdc => ?_, fun f htd htf hor => ?_⟩
  · rcases h with h | h <;> simp [ISource.I, h]
  · rcases Option.ne_none_iff_exists'.mp hdc with ⟨d, hd⟩
    subst ht
    simp [ISource.I, hd]
  · rcases hor with ⟨t, ht⟩ | hdc
    · subst ht
      simp [ISource.I, htd, htf]
    · simp [ISource.I, htd, htf, hdc]
  · rcases h with h | h <;> simp [VSource.V, h]
  · rcases Option.ne_none_iff_exists'.mp hdc with ⟨d, hd⟩
    subst ht
    simp [VSource.V, hd]
  · rcases hor with ⟨t, ht⟩ | hdc
    · subst ht
      simp [VSource.V, htd, htf]
    · simp [VSource.V, htd, htf, hdc]

/-- Witness for C1: the spec's concrete cases — `V(None)==5` and
`V(2.0)==5` for the DC-only source; `V(None)==dc_value` and
`V(t)==waveform.value(t)` for the time-dependent sources, both kinds. -/
theorem C1_source_value_precedence_witness :
    exVdc.V none = some 5 ∧ exVdc.V (some 2) = some 5 ∧
    exVwave.V none = some 5 ∧ exVwave.V (some 3) = some 30 ∧
    exIwave.I none = some 5 ∧ exIwave.I (some 3) = some 30 := by
  refine ⟨?_, ?_, ?_, ?_, ?_, ?_⟩
  · exact (C1_source_value_precedence exIwave exVdc none).2.2.2.1
      (Or.inl rfl)
  · exact (C1_source_value_precedence exIwave exVdc (some 2)).2.2.2.1
      (Or.inl rfl)
  · exact (C1_source_value_precedence exIwave exVwave none).2.2.2.2.1
      rfl (by simp [exVwave]) rfl (by simp [exVwave, mkVSource])
  · have h := (C1_source_value_precedence exIwave exVwave
      (some 3)).2.2.2.2.2 tenTimes rfl rfl (Or.inl ⟨3, rfl⟩)
    rw [h]
    norm_num [tenTimes]
  · exact (C1_source_value_precedence exIwave exVdc none).2.1
      rfl (by simp [exIwave]) rfl (by simp [exIwave, mkISource])
  · have h := (C1_source_value_precedence exIwave exVdc
      (some 3)).2.2.1 tenTimes rfl rfl (Or.inl ⟨3, rfl⟩)
    rw [h]
    norm_num [tenTimes]

/-- Claim C6: the exponential waveform returns `v1` before the rise delay;
from the rise delay up to the fall delay it returns the rise term
`v1 + (v2-v1)*(1 - exp(-(t-td1)/tau1))`; at or after the fall delay it
returns the still-evaluated rise term plus the additive fall contribution
`(v1-v2)*(1 - exp(-(t-td2)/tau2))`. -/
theorem C6_exp_superposition (e : exp) (t : ℝ) :
    (t < e.td1 → e.value t = e.v1) ∧
    (e.td1 ≤ t → t < e.td2 → e.value t =
      e.v1 + (e.v2 - e.v1) * (1 - Real.exp (-(t - e.td1) / e.tau1))) ∧
    (e.td1 ≤ t → e.td2 ≤ t → e.value t =
      e.v1 + (e.v2 - e.v1) * (1 - Real.exp (-(t - e.td1) / e.tau1)) +
        (e.v1 - e.v2) * (1 - Real.exp (-(t - e.td2) / e.tau2))) := by
  refine ⟨fun h1 => ?_, fun h1 h2 => ?_, fun h1 h2 => ?_⟩
  · rw [exp.value, if_pos h1]
  · rw [exp.value, if_neg (not_lt.mpr h1), if_pos h2]
    simp only [neg_one_mul]
  · rw [exp.value, if_neg (not_lt.mpr h1), if_neg (not_lt.mpr h2)]
    simp only [neg_one_mul]

/-- Witness for C6 at `exp(v1=0, v2=1, td1=0, tau1=1, td2=100, tau2=1)`,
evaluated in each of the three regimes. -/
theorem C6_exp_superposition_witness :
    expEx.value (-1) = expEx.v1 ∧
    expEx.value 1 = expEx.v1 + (expEx.v2 - expEx.v1) *
      (1 - Real.exp (-(1 - expEx.td1) / expEx.tau1)) ∧
    expEx.value 101 = expEx.v1 + (expEx.v2 - expEx.v1) *
      (1 - Real.exp (-(101 - expEx.td1) / expEx.tau1)) +
      (expEx.v1 - expEx.v2) * (1 - Real.exp (-(101 - expEx.td2) / expEx.tau2)) :=
  ⟨(C6_exp_superposition expEx (-1)).1 (by norm_num [expEx, mkExp]),
   (C6_exp_superposition expEx 1).2.1 (by norm_num [expEx, mkExp])
     (by norm_num [expEx, mkExp]),
   (C6_exp_superposition expEx 101).2.2 (by norm_num [expEx, mkExp])
     (by norm_num [expEx, mkExp])⟩

/-- Claim C7: a source (of either kind) constructed with no AC amplitude
(the zero complex amplitude is falsy in Python) stores magnitude and phase
as absent, not as a zero phasor, and the absent state is distinguishable
from a zero-magnitude phasor both in queries of the stored fields and in
the serialized clause structure, which carries an AC clause exactly when
the stored magnitude is present. -/
theorem C7_ac_phasor_absent {α : Type} (part_id : String) (n1 n2 : ℕ)
    (dcI dcV : Option α) (s : ISource α) (sv : VSource α) :
    (mkISource part_id n1 n2 dcI 0).abs_ac = none ∧
    (mkISource part_id n1 n2 dcI 0).arg_ac = none ∧
    (mkISource part_id n1 n2 dcI 0).abs_ac ≠ some 0 ∧
    (mkVSource part_id n1 n2 dcV 0).abs_ac = none ∧
    (mkVSource part_id n1 n2 dcV 0).arg_ac = none ∧
    (mkVSource part_id n1 n2 dcV 0).abs_ac ≠ some 0 ∧
    hasAcClause s.lineClauses = s.abs_ac.isSome ∧
    hasAcClause sv.lineClauses = sv.abs_ac.isSome := by
  refine ⟨by simp [mkISource], by simp [mkISource], by simp [mkISource],
          by simp [mkVSource], by simp [mkVSource], by simp [mkVSource],
          ?_, ?_⟩
  · cases hdc : s.dc_value <;> cases hac : s.abs_ac <;>
      cases htd : s.is_timedependent <;>
      simp [ISource.lineClauses, hasAcClause, hdc, hac, htd]
  · cases hdc : sv.dc_value <;> cases hac : sv.abs_ac <;>
      cases htd : sv.is_timedependent <;>
      simp [VSource.lineClauses, hasAcClause, hdc, hac, htd]

/-- For a nonnegative time and a positive period, the code's truncation
`int(time/per)` coincides with the floor, so `pulse.value` evaluates the
spec's five segments at the floor-wrapped time. -/
theorem pulse_value_eq_spec (p : pulse) (t : ℚ) (hper : 0 < p.per)
    (ht : 0 ≤ t) :
    p.value t = pulseSpecSegments p (t - p.per * (⌊t / p.per⌋ : ℚ)) := by
  have h0 : 0 ≤ t / p.per := div_nonneg ht hper.le
  simp only [pulse.value, pyInt]
  rw [if_pos h0, pulseSpecSegments]
  split_ifs <;> ring

/-- For a nonnegative time and a positive period, `pulse.value` is
periodic with the stored period. -/
theorem pulse_value_periodic (p : pulse) (t : ℚ) (hper : 0 < p.per)
    (ht : 0 ≤ t) : p.value (t + p.per) = p.value t := by
  rw [pulse_value_eq_spec p t hper ht,
    pulse_value_eq_spec p (t + p.per) hper (add_nonneg ht hper.le)]
  congr 1
  have hdiv : (t + p.per) / p.per = t / p.per + 1 := by
    field_simp
  rw [hdiv, Int.floor_add_one]
  push_cast
  ring

/-- Counterexample to claim C2: the code truncates `time/per` toward zero
(Python `int`) instead of taking its floor, so for a negative time the
wrap differs from the claimed `time - per*floor(time/per)` and the claimed
periodicity `value(t + per) == value(t)` fails: at `t = -9.5` the example
pulse yields `value(-9.5) = 0` while `value(-9.5 + 10) = 2.5`, and the
claimed floor-wrapped segment evaluation at `t = -9.5` yields `2.5`. -/
theorem C2_pulse_counterexample :
    pulseEx.value (-9.5 + 10) ≠ pulseEx.value (-9.5) ∧
    pulseEx.value (-9.5) ≠
      pulseSpecSegments pulseEx
        ((-9.5) - pulseEx.per * (⌊(-9.5 : ℚ) / pulseEx.per⌋ : ℚ)) := by
  have hpy : pyInt ((-9.5 : ℚ) / 10) = 0 := by
    rw [pyInt, if_neg (by norm_num)]
    rw [Int.ceil_eq_iff]
    norm_num
  constructor
  · simp only [pulseEx, mkPulse, pulse.value]
    rw [hpy]
    norm_num [pyInt]
  · simp only [pulseEx, mkPulse, pulse.value, pulseSpecSegments]
    rw [hpy]
    norm_num

/-- Claim C2 as amended: for every pulse with positive period and every
nonnegative time, `value` wraps the time by subtracting `per*floor(t/per)`
(truncation and floor agree there) and evaluates the five ordered
segments, and `value(t + per) == value(t)`; all of the spec's example
values for the pulse `(v1=0, v2=5, td=0, tr=1, tf=1, pw=2, per=10)` hold.
For negative times the code truncates toward zero instead of flooring, so
the wrap and the periodicity are not those claimed. -/
theorem C2_pulse_amended (p : pulse) (t : ℚ) (hper : 0 < p.per)
    (ht : 0 ≤ t) :
    p.value t = pulseSpecSegments p (t - p.per * (⌊t / p.per⌋ : ℚ)) ∧
    p.value (t + p.per) = p.value t ∧
    (pulseEx.value 0 = 0 ∧ pulseEx.value 0.5 = 2.5 ∧
     pulseEx.value 1.5 = 5 ∧ pulseEx.value 3 = 5 ∧
     pulseEx.value 3.5 = 2.5 ∧ pulseEx.value 4.5 = 0 ∧
     pulseEx.value 11 = pulseEx.value 1) := by
  refine ⟨pulse_value_eq_spec p t hper ht,
          pulse_value_periodic p t hper ht, ?_, ?_, ?_, ?_, ?_, ?_, ?_⟩ <;>
    norm_num [pulseEx, mkPulse, pulse.value, pyInt]

/-- Witness for C2 at the example pulse and `t = 11`. -/
theorem C2_pulse_amended_witness :
    pulseEx.value (11 + pulseEx.per) = pulseEx.value 11 :=
  (C2_pulse_amended pulseEx 11 (by norm_num [pulseEx, mkPulse])
    (by norm_num)).2.1

end Ahkab
